import Mathlib

/-!
Shallow embedding of the mrt-state-to-state repository (src/bgp_state.rs,
src/announcement.rs, src/mrt_processor.rs) and proofs about its claims.

Modelling conventions:
* `DateTime<Utc>` / `NaiveDateTime` timestamps are embedded as `Int`
  (seconds since epoch); chrono comparison and `+ Duration::seconds`
  become integer comparison and addition.
* `HashMap` is embedded as an association list with unique keys
  (`alookup` / `ainsert` / `aerase`); insertion is last-write-wins,
  matching `HashMap::insert`, and removal matches `HashMap::remove`.
* IP addresses, network prefixes, AS numbers, origin codes, communities
  and optional-parameter payloads are opaque to the core logic, so they
  are embedded as `Nat`.  The source field name `prefix` is rendered
  `pfx`.
* `u16` arithmetic wraps modulo 2^16 (Rust release-mode semantics), made
  explicit with `% 65536` where a product can overflow.
* A Rust panic (`unwrap` on `Err`) is modelled as `Option.none`.
-/

/-- Association-list lookup, embedding `HashMap::get`. -/
def alookup {α β : Type} [DecidableEq α] : List (α × β) → α → Option β
  | [], _ => none
  | p :: rest, k => if p.1 = k then some p.2 else alookup rest k

/-- Association-list removal of every entry with key `k`, embedding
`HashMap::remove` (keys are unique, so at most one entry is removed). -/
def aerase {α β : Type} [DecidableEq α] (k : α) : List (α × β) → List (α × β)
  | [] => []
  | p :: rest => if p.1 = k then aerase k rest else p :: aerase k rest

/-- Association-list insertion with replacement, embedding `HashMap::insert`. -/
def ainsert {α β : Type} [DecidableEq α] (k : α) (v : β) (l : List (α × β)) :
    List (α × β) :=
  (k, v) :: aerase k l

/-! ## Data model (src/bgp_state.rs) -/

/-- `ConnectionState` from src/bgp_state.rs: possible states of a BGP
connection. -/
inductive ConnectionState : Type where
  | Idle
  | Connect
  | Active
  | OpenSent
  | OpenConfirm
  | Established
deriving DecidableEq, Repr

/-- `ElemType` from bgpkit (external decoder): an update element is either
an announcement or a withdrawal. -/
inductive ElemType : Type where
  | ANNOUNCE
  | WITHDRAW
deriving DecidableEq, Repr

/-- `BgpElem` (external decoder): the fields read by the core.  `pfx`
renders the source field `prefix`; attribute payloads are opaque `Nat`s. -/
structure BgpElem : Type where
  elem_type : ElemType
  timestamp : Int
  peer_ip : Nat
  peer_asn : Nat
  pfx : Nat
  as_path : Option (List Nat)
  origin : Option Nat
  local_pref : Option Nat
  next_hop : Option Nat
  med : Option Nat
  communities : Option (List Nat)
  only_to_customer : Option Nat
deriving DecidableEq, Repr

/-- `BgpOpenMessage` (external decoder): the fields read by the core. -/
structure BgpOpenMessage : Type where
  hold_time : Nat
  opt_params : List Nat
deriving DecidableEq, Repr

/-- `Announcement` from src/bgp_state.rs: an immutable snapshot of one
route's attributes. -/
structure Announcement : Type where
  timestamp : Int
  as_path : Option (List Nat)
  origin : Option Nat
  local_pref : Option Nat
  next_hop : Option Nat
  med : Option Nat
  communities : Option (List Nat)
  only_to_customer : Option Nat
deriving DecidableEq, Repr

/-- Error text of `Announcement::from_bgp_elem` for a withdrawal element. -/
def withdrawalErrMsg : String := "Cannot create announcement from withdrawal element"

/-- `Announcement::from_bgp_elem` (src/bgp_state.rs lines 92-111): fails on a
withdrawal element, otherwise copies the element's attributes.
`is_announcement()` is `elem_type == ANNOUNCE`. -/
def Announcement.from_bgp_elem (elem : BgpElem) : Except String Announcement :=
  if elem.elem_type ≠ ElemType.ANNOUNCE then
    Except.error withdrawalErrMsg
  else
    Except.ok
      { timestamp := elem.timestamp
        as_path := elem.as_path
        origin := elem.origin
        local_pref := elem.local_pref
        next_hop := elem.next_hop
        med := elem.med
        communities := elem.communities
        only_to_customer := elem.only_to_customer }

/-- `BgpState` from src/bgp_state.rs: per-peer session state.
`prefix_announcements` is the RIB (source type
`HashMap<NetworkPrefix, Announcement>`). -/
structure BgpState : Type where
  connection_state : ConnectionState
  last_message_timestamp : Option Int
  prefix_announcements : List (Nat × Announcement)
  hold_time : Option Nat
  options : Option (List Nat)
deriving DecidableEq, Repr

/-- `BgpState::new` (src/bgp_state.rs lines 116-124). -/
def BgpState.new : BgpState :=
  { connection_state := ConnectionState.Idle
    last_message_timestamp := none
    prefix_announcements := []
    hold_time := none
    options := none }

/-- `BgpState::update_connection_state` (src/bgp_state.rs lines 133-150).
The source's `match` arms differ only in logging — the
`(Established, Established)` arm skips the clear and the other arms clear —
but an unconditional `self.prefix_announcements.clear()` follows the match,
so the RIB is emptied in every case.  The timestamp is overwritten, not
maxed. -/
def BgpState.update_connection_state (s : BgpState) (ts : Int)
    (new_state : ConnectionState) : BgpState :=
  { s with
    prefix_announcements := []
    connection_state := new_state
    last_message_timestamp := some ts }

/-- `BgpState::open_message` (src/bgp_state.rs lines 126-130). -/
def BgpState.open_message (s : BgpState) (ts : Int) (msg : BgpOpenMessage) :
    BgpState :=
  let s := s.update_connection_state ts ConnectionState.OpenSent
  { s with hold_time := some msg.hold_time, options := some msg.opt_params }

/-- `BgpState::update_last_message_timestamp` (src/bgp_state.rs lines
152-156): `self.last_message_timestamp.map(|ts| ts.max(timestamp)).or(Some(timestamp))`. -/
def BgpState.update_last_message_timestamp (s : BgpState) (timestamp : Int) :
    BgpState :=
  { s with
    last_message_timestamp :=
      match s.last_message_timestamp with
      | some ts => some (max ts timestamp)
      | none => some timestamp }

/-- `BgpState::update_prefix` (src/bgp_state.rs lines 159-165).  The source
calls `.unwrap()` on `from_bgp_elem`, panicking on a withdrawal element;
the panic is modelled as `none`. -/
def BgpState.update_pfx (s : BgpState) (elem : BgpElem) : Option BgpState :=
  match Announcement.from_bgp_elem elem with
  | Except.error _ => none
  | Except.ok announcement =>
    let s := s.update_last_message_timestamp announcement.timestamp
    some { s with
           prefix_announcements :=
             ainsert elem.pfx announcement s.prefix_announcements }

/-- `BgpState::withdraw_prefix` (src/bgp_state.rs lines 167-170). -/
def BgpState.withdraw_pfx (s : BgpState) (ts : Int) (pfx : Nat) : BgpState :=
  let s := s.update_last_message_timestamp ts
  { s with prefix_announcements := aerase pfx s.prefix_announcements }

/-! ## Announcement duration tracker (src/announcement.rs) -/

/-- `PeerPrefix` key from src/announcement.rs: (peer address, prefix). -/
abbrev PeerPfx : Type := Nat × Nat

/-- `AnnouncementTracker` from src/announcement.rs (field name keeps the
source's spelling `announement_start`). -/
structure AnnouncementTracker : Type where
  announement_start : List (PeerPfx × Int)
deriving DecidableEq, Repr

/-- `AnnouncementTracker::add_announcement` (src/announcement.rs lines
30-37): returns the previously stored start timestamp and overwrites the
entry with `ts`. -/
def AnnouncementTracker.add_announcement (t : AnnouncementTracker)
    (peer_ip : Nat) (pfx : Nat) (ts : Int) :
    Option Int × AnnouncementTracker :=
  let key : PeerPfx := (peer_ip, pfx)
  let initial := alookup t.announement_start key
  (initial, { announement_start := ainsert key ts t.announement_start })

/-- `AnnouncementTracker::withdraw_announcement` (src/announcement.rs lines
39-42): removes the entry and returns the stored start timestamp. -/
def AnnouncementTracker.withdraw_announcement (t : AnnouncementTracker)
    (peer_ip : Nat) (pfx : Nat) : Option Int × AnnouncementTracker :=
  let key : PeerPfx := (peer_ip, pfx)
  (alookup t.announement_start key,
   { announement_start := aerase key t.announement_start })

/-! ## MRT processor (src/mrt_processor.rs) -/

/-- `BgpPeer` from src/mrt_processor.rs: peer identity (IP address, AS
number). -/
structure BgpPeer : Type where
  address : Nat
  peer_as : Nat
deriving DecidableEq, Repr

/-- `MrtProcessor` from src/mrt_processor.rs lines 27-31. -/
structure MrtProcessor : Type where
  current_state : List (BgpPeer × BgpState)
  send_hold_time_multiple : Option Nat
  default_hold_time : Nat
deriving DecidableEq, Repr

/-- `MrtProcessor::new` (src/mrt_processor.rs lines 35-41). -/
def MrtProcessor.new (default_hold_time : Nat)
    (send_hold_time_multiple : Option Nat) : MrtProcessor :=
  { current_state := []
    send_hold_time_multiple := send_hold_time_multiple
    default_hold_time := default_hold_time }

/-- `MrtProcessor::default` (src/mrt_processor.rs lines 43-45). -/
def MrtProcessor.default : MrtProcessor := MrtProcessor.new 180 none

/-- `BgpMessage` (external decoder), restricted to what the dispatch reads.
The `Update` payload carries the elements produced by
`Elementor::bgp_update_to_elems` (external library), already expanded. -/
inductive BgpMessage : Type where
  | Open (msg : BgpOpenMessage)
  | Update (elements : List BgpElem)
  | KeepAlive
  | Notification
deriving DecidableEq, Repr

/-- `Bgp4MpMessage` (external decoder): peer identity plus a BGP message. -/
structure Bgp4MpMessage : Type where
  peer_ip : Nat
  peer_asn : Nat
  bgp_message : BgpMessage
deriving DecidableEq, Repr

/-- `Bgp4MpStateChange` (external decoder): a session-level state change.
The source converts the decoder's state enum with `to_connection_state`,
an identity mapping on the six states, so the embedded record carries
`ConnectionState` directly. -/
structure Bgp4MpStateChange : Type where
  peer_addr : Nat
  peer_asn : Nat
  new_state : ConnectionState
deriving DecidableEq, Repr

/-- `Bgp4MpEnum` (external decoder). -/
inductive Bgp4MpEnum : Type where
  | Message (msg : Bgp4MpMessage)
  | StateChange (msg : Bgp4MpStateChange)
deriving DecidableEq, Repr

/-- `MrtMessage` (external decoder): `TableDumpV2` stands for every record
kind other than `Bgp4Mp` (the source's catch-all `_` arm, e.g. snapshot
records). -/
inductive MrtMessage : Type where
  | Bgp4Mp (m : Bgp4MpEnum)
  | TableDumpV2
deriving DecidableEq, Repr

/-- `MrtRecord` (external decoder): `timestamp` is `mrt_record_ts` of the
common header. -/
structure MrtRecord : Type where
  timestamp : Int
  message : MrtMessage
deriving DecidableEq, Repr

/-- Whether a record is a BGP4MP session/message record, i.e. falls outside
the source's catch-all error arm (src/mrt_processor.rs lines 144-146). -/
def isSessionRecord (r : MrtRecord) : Bool :=
  match r.message with
  | MrtMessage.Bgp4Mp _ => true
  | MrtMessage.TableDumpV2 => false

/-- Error text of the catch-all arm (src/mrt_processor.rs line 145). -/
def unsupportedMsg (file : String) : String :=
  "Unsupported content: Update file " ++ file ++ " might be a bview."

/-- The per-element dispatch inside the `Update` arm (src/mrt_processor.rs
lines 111-120): announcements go to `update_prefix` (which can panic,
modelled as `none`), withdrawals to `withdraw_prefix`. -/
def applyElems : BgpState → List BgpElem → Option BgpState
  | s, [] => some s
  | s, elem :: rest =>
    match elem.elem_type with
    | ElemType.ANNOUNCE =>
      match s.update_pfx elem with
      | some s => applyElems s rest
      | none => none
    | ElemType.WITHDRAW =>
      applyElems (s.withdraw_pfx elem.timestamp elem.pfx) rest

/-- The `BgpMessage` dispatch (src/mrt_processor.rs lines 98-131). -/
def applyBgpMessage (s : BgpState) (ts : Int) : BgpMessage → Option BgpState
  | BgpMessage.Open msg => some (s.open_message ts msg)
  | BgpMessage.Update elements => applyElems s elements
  | BgpMessage.KeepAlive => some (s.update_last_message_timestamp ts)
  | BgpMessage.Notification =>
    some (s.update_connection_state ts ConnectionState.Idle)

/-- `entry(peer).or_insert_with(BgpState::new)`: the session looked up in
the peer map, or a fresh one. -/
def peerEntry (m : List (BgpPeer × BgpState)) (peer : BgpPeer) : BgpState :=
  (alookup m peer).getD BgpState.new

/-- One iteration of the record loop (src/mrt_processor.rs lines 88-147):
`none` models a panic, `Except.error` the early return of the catch-all
arm. -/
def processRecord (proc : MrtProcessor) (file : String) (r : MrtRecord) :
    Option (Except String MrtProcessor) :=
  match r.message with
  | MrtMessage.Bgp4Mp (Bgp4MpEnum.Message msg) =>
    let peer : BgpPeer := { address := msg.peer_ip, peer_as := msg.peer_asn }
    let peer_state := peerEntry proc.current_state peer
    match applyBgpMessage peer_state r.timestamp msg.bgp_message with
    | some s =>
      some (Except.ok
        { proc with current_state := ainsert peer s proc.current_state })
    | none => none
  | MrtMessage.Bgp4Mp (Bgp4MpEnum.StateChange msg) =>
    let peer : BgpPeer := { address := msg.peer_addr, peer_as := msg.peer_asn }
    let peer_state := peerEntry proc.current_state peer
    some (Except.ok
      { proc with
        current_state :=
          ainsert peer
            (peer_state.update_connection_state r.timestamp msg.new_state)
            proc.current_state })
  | MrtMessage.TableDumpV2 => some (Except.error (unsupportedMsg file))

/-- `(multiplier) * hold_time` in `u16` arithmetic (src/mrt_processor.rs
line 166): both operands are `u16`, so the product wraps modulo 2^16. -/
def effective_hold_time (mult : Nat) (hold : Nat) : Nat :=
  (mult * hold) % 65536

/-- The staleness check for one session (src/mrt_processor.rs lines
152-174): sessions in `Idle` or without a recorded timestamp are skipped;
otherwise `cutoff = last_ts + effective_hold_time` and the session is
demoted to `Idle` when `last_message_timestamp < cutoff`. -/
def sweepOne (default_hold : Nat) (mult : Nat) (last_ts : Int)
    (s : BgpState) : BgpState :=
  if s.connection_state = ConnectionState.Idle then s
  else
    match s.last_message_timestamp with
    | none => s
    | some last_message_ts =>
      let hold_time := s.hold_time.getD default_hold
      let eff := effective_hold_time mult hold_time
      let cutoff := last_ts + (eff : Int)
      if last_message_ts < cutoff then
        s.update_connection_state last_ts ConnectionState.Idle
      else s

/-- The staleness sweep over the whole peer map (src/mrt_processor.rs lines
151-175): runs only when the file produced at least one timestamp. -/
def sweep (proc : MrtProcessor) (last_ts : Option Int) : MrtProcessor :=
  match last_ts with
  | none => proc
  | some ts =>
    { proc with
      current_state :=
        proc.current_state.map fun p =>
          (p.1,
           sweepOne proc.default_hold_time
             (proc.send_hold_time_multiple.getD 1) ts p.2) }

/-- The record loop of `process_update_file`, threading the running maximum
timestamp (src/mrt_processor.rs lines 81-148). -/
def processRecords (file : String) (proc : MrtProcessor)
    (last_ts : Option Int) :
    List MrtRecord → Option (Except String (MrtProcessor × Option Int))
  | [] => some (Except.ok (proc, last_ts))
  | r :: rest =>
    let ts := r.timestamp
    let last_ts := some (max (last_ts.getD ts) ts)
    match processRecord proc file r with
    | none => none
    | some (Except.error e) => some (Except.error e)
    | some (Except.ok proc) => processRecords file proc last_ts rest

/-- `MrtProcessor::process_update_file` (src/mrt_processor.rs lines
73-179): consume the records in order, then run the staleness sweep with
the batch-maximum timestamp. -/
def process_update_file (proc : MrtProcessor) (file : String)
    (records : List MrtRecord) : Option (Except String MrtProcessor) :=
  match processRecords file proc none records with
  | none => none
  | some (Except.error e) => some (Except.error e)
  | some (Except.ok (proc, last_ts)) => some (Except.ok (sweep proc last_ts))

/-- The program state extended with the announcement-duration tracker.
src/announcement.rs is present in the repository but is never referenced:
main.rs declares only `bgp_state`, `mrt_processor` and `util` as modules,
and no function in src/mrt_processor.rs calls the tracker, so update-file
processing carries the tracker through unchanged. -/
def process_update_file_with_tracker (proc : MrtProcessor)
    (tracker : AnnouncementTracker) (file : String)
    (records : List MrtRecord) :
    Option (Except String (MrtProcessor × AnnouncementTracker)) :=
  match process_update_file proc file records with
  | none => none
  | some (Except.error e) => some (Except.error e)
  | some (Except.ok proc) => some (Except.ok (proc, tracker))

/-- Projection of the tracker component out of a processing result. -/
def trackerPart
    (r : Option (Except String (MrtProcessor × AnnouncementTracker))) :
    Option AnnouncementTracker :=
  match r with
  | some (Except.ok pr) => some pr.2
  | _ => none

/-! ## Concrete demonstration values -/

/-- A route announcement with every optional attribute absent. -/
def demoAnn : Announcement :=
  { timestamp := 0
    as_path := none
    origin := none
    local_pref := none
    next_hop := none
    med := none
    communities := none
    only_to_customer := none }

/-- An `Established` session holding one RIB entry. -/
def c2State : BgpState :=
  { connection_state := ConnectionState.Established
    last_message_timestamp := some 0
    prefix_announcements := [(24, demoAnn)]
    hold_time := none
    options := none }

/-- An `Established` session with negotiated hold time 30000 whose last
activity is at timestamp 30000. -/
def c9State : BgpState :=
  { connection_state := ConnectionState.Established
    last_message_timestamp := some 30000
    prefix_announcements := []
    hold_time := some 30000
    options := none }

/-- An `Established` session with negotiated hold time 90, last active at
timestamp 600 — exactly the batch-maximum timestamp. -/
def c1Session : BgpState :=
  { connection_state := ConnectionState.Established
    last_message_timestamp := some 600
    prefix_announcements := []
    hold_time := some 90
    options := none }

/-- A processor (multiplier absent, so 1) holding only `c1Session`. -/
def c1Proc : MrtProcessor :=
  { current_state := [({ address := 1, peer_as := 65001 }, c1Session)]
    send_hold_time_multiple := none
    default_hold_time := 180 }

/-- An update element from peer 1 / AS 65001 for prefix 24 with no optional
attributes. -/
def mkElem (ety : ElemType) (ts : Int) (pfx : Nat) : BgpElem :=
  { elem_type := ety
    timestamp := ts
    peer_ip := 1
    peer_asn := 65001
    pfx := pfx
    as_path := none
    origin := none
    local_pref := none
    next_hop := none
    med := none
    communities := none
    only_to_customer := none }

/-- One update record from peer 1 / AS 65001 carrying a single element. -/
def mkUpdateRecord (ts : Int) (elem : BgpElem) : MrtRecord :=
  { timestamp := ts
    message := MrtMessage.Bgp4Mp (Bgp4MpEnum.Message
      { peer_ip := 1, peer_asn := 65001
        bgp_message := BgpMessage.Update [elem] }) }

/-- The C4 scenario: peer 1 announces prefix 24 at t=10, withdraws it at
t=20, re-announces it at t=30. -/
def c4Records : List MrtRecord :=
  [ mkUpdateRecord 10 (mkElem ElemType.ANNOUNCE 10 24),
    mkUpdateRecord 20 (mkElem ElemType.WITHDRAW 20 24),
    mkUpdateRecord 30 (mkElem ElemType.ANNOUNCE 30 24) ]

/-- A keep-alive record from peer 1 / AS 65001 at timestamp 100. -/
def c8Good : MrtRecord :=
  { timestamp := 100
    message := MrtMessage.Bgp4Mp (Bgp4MpEnum.Message
      { peer_ip := 1, peer_asn := 65001
        bgp_message := BgpMessage.KeepAlive }) }

/-- A record of a kind only legal in snapshot files, at timestamp 110. -/
def c8Bad : MrtRecord := { timestamp := 110, message := MrtMessage.TableDumpV2 }

/-! ## Helper lemmas and claim theorems -/

theorem alookup_ainsert_self {α β : Type} [DecidableEq α]
    (k : α) (v : β) (l : List (α × β)) : alookup (ainsert k v l) k = some v := by
  simp [ainsert, alookup]

theorem alookup_aerase_self {α β : Type} [DecidableEq α]
    (k : α) (l : List (α × β)) : alookup (aerase k l) k = none := by
  induction l with
  | nil => simp [aerase, alookup]
  | cons p rest ih =>
    by_cases h : p.1 = k
    · simpa [aerase, h] using ih
    · simp [aerase, h, alookup, ih]

theorem alookup_eq_none_iff {α β : Type} [DecidableEq α]
    (l : List (α × β)) (k : α) :
    alookup l k = none ↔ ∀ p ∈ l, p.1 ≠ k := by
  induction l with
  | nil => simp [alookup]
  | cons p rest ih =>
    by_cases h : p.1 = k
    · simp [alookup, h]
    · simp [alookup, h, ih]

theorem aerase_of_absent {α β : Type} [DecidableEq α]
    (l : List (α × β)) (k : α) (h : alookup l k = none) : aerase k l = l := by
  induction l with
  | nil => rfl
  | cons p rest ih =>
    rw [alookup_eq_none_iff] at h
    have hp : p.1 ≠ k := h p (List.mem_cons_self p rest)
    have hrest : alookup rest k = none := by
      rw [alookup_eq_none_iff]
      exact fun q hq => h q (List.mem_cons_of_mem p hq)
    simp [aerase, hp, ih hrest]

theorem aerase_aerase {α β : Type} [DecidableEq α]
    (l : List (α × β)) (k : α) : aerase k (aerase k l) = aerase k l :=
  aerase_of_absent _ _ (alookup_aerase_self k l)

/-- The per-element dispatch never panics: `update_pfx` is only reached for
`ANNOUNCE` elements, on which `from_bgp_elem` succeeds. -/
theorem applyElems_isSome (elems : List BgpElem) :
    ∀ s : BgpState, (applyElems s elems).isSome = true := by
  induction elems with
  | nil => intro s; rfl
  | cons elem rest ih =>
    intro s
    cases h : elem.elem_type with
    | ANNOUNCE =>
      have hup : ∃ s', s.update_pfx elem = some s' := by
        simp [BgpState.update_pfx, Announcement.from_bgp_elem, h]
      obtain ⟨s', hs'⟩ := hup
      simp [applyElems, h, hs', ih]
    | WITHDRAW =>
      simp [applyElems, h, ih]

/-- Every branch of the message dispatch yields a state. -/
theorem applyBgpMessage_isSome (s : BgpState) (ts : Int) (m : BgpMessage) :
    (applyBgpMessage s ts m).isSome = true := by
  cases m <;> simp [applyBgpMessage, applyElems_isSome]

/-- Processing a BGP4MP session/message record succeeds. -/
theorem processRecord_ok (proc : MrtProcessor) (file : String) (r : MrtRecord)
    (h : isSessionRecord r = true) :
    ∃ proc', processRecord proc file r = some (Except.ok proc') := by
  obtain ⟨ts, message⟩ := r
  cases message with
  | Bgp4Mp m =>
    cases m with
    | Message msg =>
      have hs := applyBgpMessage_isSome
        (peerEntry proc.current_state
          { address := msg.peer_ip, peer_as := msg.peer_asn })
        ts msg.bgp_message
      obtain ⟨s, hsome⟩ := Option.isSome_iff_exists.mp hs
      refine ⟨{ proc with
        current_state :=
          ainsert { address := msg.peer_ip, peer_as := msg.peer_asn } s
            proc.current_state }, ?_⟩
      simp [processRecord, hsome]
    | StateChange msg => exact ⟨_, rfl⟩
  | TableDumpV2 => simp [isSessionRecord] at h

/-- A non-BGP4MP record anywhere after a prefix of session records makes
the record loop return the catch-all error, whatever follows it. -/
theorem processRecords_error (file : String) (bad : MrtRecord)
    (hbad : isSessionRecord bad = false) (post : List MrtRecord) :
    ∀ pre : List MrtRecord, pre.all isSessionRecord = true →
    ∀ (proc : MrtProcessor) (last_ts : Option Int),
      processRecords file proc last_ts (pre ++ bad :: post) =
        some (Except.error (unsupportedMsg file)) := by
  intro pre
  induction pre with
  | nil =>
    intro _ proc last_ts
    obtain ⟨ts, message⟩ := bad
    cases message with
    | Bgp4Mp m => simp [isSessionRecord] at hbad
    | TableDumpV2 => simp [processRecords, processRecord]
  | cons r rest ih =>
    intro hall proc last_ts
    rw [List.all_cons, Bool.and_eq_true] at hall
    obtain ⟨proc', hproc'⟩ := processRecord_ok proc file r hall.1
    simp [processRecords, hproc', ih hall.2]

/-! ## Claim theorems -/

/-- C2 counterexample: a session in `Established` with a non-empty RIB,
transitioned to `Established`, does NOT keep its RIB — the unconditional
`clear()` after the source's match (src/bgp_state.rs line 147) empties it,
so an `Established → Established` transition is not a RIB no-op. -/
theorem C2_estab_estab_counterexample :
    c2State.connection_state = ConnectionState.Established ∧
    (c2State.update_connection_state 5 ConnectionState.Established).prefix_announcements ≠
      c2State.prefix_announcements := by
  decide

/-- C2 (amended): every `transition` call leaves the RIB empty afterwards,
for every pair of old and new states, including `Established → Established`
(which is special-cased only in logging). -/
theorem C2_transition_clears_rib (s : BgpState) (ts : Int)
    (new_state : ConnectionState) :
    (s.update_connection_state ts new_state).prefix_announcements = [] := rfl

/-- C3 counterexample: after `touch(10)` followed by `record_open` at
timestamp 5, `last_activity_timestamp` is 5 — smaller than the maximum 10
of all timestamps passed — so `record_open` decreased it. -/
theorem C3_max_invariant_counterexample :
    ((BgpState.update_last_message_timestamp BgpState.new 10).open_message 5
        { hold_time := 90, opt_params := [] }).last_message_timestamp = some 5 ∧
    (5 : Int) < 10 := by
  decide

/-- C3 (amended): `touch` sets `last_activity_timestamp` to the maximum of
the current value and the given timestamp (so it never decreases it), but
`record_open` — via the transition it performs — overwrites it with exactly
the given timestamp, which can move it backward; the once-set-equals-maximum
invariant holds only across stretches of `touch` calls. -/
theorem C3_touch_max_record_open_overwrites :
    (∀ (s : BgpState) (t : Int),
      (s.update_last_message_timestamp t).last_message_timestamp =
        some (max (s.last_message_timestamp.getD t) t)) ∧
    (∀ (s : BgpState) (ts : Int) (msg : BgpOpenMessage),
      (s.open_message ts msg).last_message_timestamp = some ts) := by
  constructor
  · intro s t
    cases h : s.last_message_timestamp <;>
      simp [BgpState.update_last_message_timestamp, h]
  · intro s ts msg
    rfl

/-- C5: `begin_or_renew` (`add_announcement`) returns the previously stored
start timestamp — `none` when no run was active — and always stores the new
timestamp; `end` (`withdraw_announcement`) returns the most recently stored
start timestamp — `none` for a key with no active run — and removes the
entry. -/
theorem C5_tracker_contract (tr : AnnouncementTracker) (peer pfx : Nat)
    (ts : Int) :
    (tr.add_announcement peer pfx ts).1 =
      alookup tr.announement_start (peer, pfx) ∧
    alookup (tr.add_announcement peer pfx ts).2.announement_start (peer, pfx) =
      some ts ∧
    (tr.withdraw_announcement peer pfx).1 =
      alookup tr.announement_start (peer, pfx) ∧
    alookup (tr.withdraw_announcement peer pfx).2.announement_start (peer, pfx) =
      none :=
  ⟨rfl, alookup_ainsert_self _ _ _, rfl, alookup_aerase_self _ _⟩

/-- C6: withdrawing a prefix absent from the RIB leaves the RIB unchanged
(no error), and applying the same withdrawal twice yields the same RIB as
applying it once. -/
theorem C6_withdraw_absent_noop (s : BgpState) (ts : Int) (pfx : Nat) :
    (alookup s.prefix_announcements pfx = none →
      (s.withdraw_pfx ts pfx).prefix_announcements = s.prefix_announcements) ∧
    ((s.withdraw_pfx ts pfx).withdraw_pfx ts pfx).prefix_announcements =
      (s.withdraw_pfx ts pfx).prefix_announcements := by
  constructor
  · intro h
    simpa [BgpState.withdraw_pfx, BgpState.update_last_message_timestamp] using
      aerase_of_absent _ _ h
  · simpa [BgpState.withdraw_pfx, BgpState.update_last_message_timestamp] using
      aerase_aerase s.prefix_announcements pfx

/-- C6 witness: on a concrete session whose RIB holds only prefix 7,
withdrawing the absent prefix 24 leaves the RIB unchanged. -/
theorem C6_withdraw_absent_noop_witness :
    alookup c2State.prefix_announcements 7 = none ∧
    (c2State.withdraw_pfx 5 7).prefix_announcements =
      c2State.prefix_announcements :=
  ⟨by decide, (C6_withdraw_absent_noop c2State 5 7).1 (by decide)⟩

/-- C7: after `record_open(ts, hold_time, options)` the session's state is
`OpenSent`, its RIB is empty, and the stored hold time and options equal
the values advertised in the Open message. -/
theorem C7_record_open (s : BgpState) (ts : Int) (msg : BgpOpenMessage) :
    (s.open_message ts msg).connection_state = ConnectionState.OpenSent ∧
    (s.open_message ts msg).prefix_announcements = [] ∧
    (s.open_message ts msg).hold_time = some msg.hold_time ∧
    (s.open_message ts msg).options = some msg.opt_params :=
  ⟨rfl, rfl, rfl, rfl⟩

/-- C9: the effective hold interval is `multiplier * hold_time` in `u16`
arithmetic; for `hold_time = 30000` and `multiplier = 3` the product wraps
to 24464 ≠ 90000, and the sweep leaves `c9State` untouched at batch
timestamp 1000 even though the mathematical product 90000 would demote it
(`30000 < 1000 + 90000`), so the sweep does not use the mathematical
product for every input. -/
theorem C9_u16_overflow :
    effective_hold_time 3 30000 = 24464 ∧
    (24464 : Nat) ≠ 3 * 30000 ∧
    sweepOne 180 3 1000 c9State = c9State ∧
    (30000 : Int) < 1000 + 3 * 30000 := by
  decide

/-- C1: the sweep computes `cutoff = batch_ts + effective_hold` and demotes
when `last_activity < cutoff` (src/mrt_processor.rs lines 166-172), so a
session whose last activity T = 600 equals the batch timestamp B = 600 is
demoted to `Idle` even though the specified demotion condition
`T + H*M < B` (600 + 1*90 < 600) is false: the code demotes nearly every
non-idle session instead of only stale ones. -/
theorem C1_sweep_demotes_fresh_session :
    ((alookup (sweep c1Proc (some 600)).current_state
        { address := 1, peer_as := 65001 }).map
      (fun s => s.connection_state)) = some ConnectionState.Idle ∧
    ¬ ((600 : Int) + 1 * 90 < 600) := by
  decide

/-- C4: processing the announce/withdraw/re-announce scenario through the
engine leaves the announcement-duration tracker exactly as it started —
empty — because `process_update_file` never invokes the tracker
(src/announcement.rs has no call sites; main.rs does not even declare it as
a module).  In particular no run for (peer 1, prefix 24) starting at t=30
is recorded, contrary to the claim. -/
theorem C4_engine_never_drives_tracker :
    trackerPart
      (process_update_file_with_tracker MrtProcessor.default
        { announement_start := [] } "updates" c4Records) =
      some { announement_start := [] } ∧
    alookup ({ announement_start := [] } : AnnouncementTracker).announement_start
      (1, 24) ≠ some 30 := by
  decide

/-- C10: `from_bgp_elem` returns the withdrawal error exactly when the
element is a withdrawal; `update_prefix` therefore hits its `unwrap` panic
(modelled as `none`) exactly on withdrawal elements; and the engine's
per-element dispatch (`applyElems`), which routes only `ANNOUNCE` elements
to `update_prefix`, never reaches the panic. -/
theorem C10_update_pfx_panic_unreachable :
    (∀ elem : BgpElem,
      Announcement.from_bgp_elem elem = Except.error withdrawalErrMsg ↔
        elem.elem_type = ElemType.WITHDRAW) ∧
    (∀ (s : BgpState) (elem : BgpElem),
      s.update_pfx elem = none ↔ elem.elem_type = ElemType.WITHDRAW) ∧
    (∀ (s : BgpState) (elems : List BgpElem),
      (applyElems s elems).isSome = true) := by
  refine ⟨?_, ?_, ?_⟩
  · intro elem
    cases h : elem.elem_type <;>
      simp [Announcement.from_bgp_elem, h]
  · intro s elem
    cases h : elem.elem_type <;>
      simp [BgpState.update_pfx, Announcement.from_bgp_elem, h]
  · intro s elems
    exact applyElems_isSome elems s

/-- C8: an update file containing a record that is not a BGP4MP
session/message record fails the whole call with the catch-all error, whose
text names the offending file (`file` appears verbatim in the message);
the result is the same for every suffix after the offending record and is
an error, so neither the later records nor the staleness sweep are
processed. -/
theorem C8_wrong_file_kind (proc : MrtProcessor) (file : String)
    (pre : List MrtRecord) (bad : MrtRecord) (post : List MrtRecord)
    (hpre : pre.all isSessionRecord = true)
    (hbad : isSessionRecord bad = false) :
    process_update_file proc file (pre ++ bad :: post) =
      some (Except.error
        ("Unsupported content: Update file " ++ file ++ " might be a bview.")) := by
  have h := processRecords_error file bad hbad post pre hpre proc none
  simp [process_update_file, h, unsupportedMsg]

/-- C8 witness: a concrete file with a good record, then a snapshot-only
record, then another good record fails with the error naming the file. -/
theorem C8_wrong_file_kind_witness :
    [c8Good].all isSessionRecord = true ∧
    isSessionRecord c8Bad = false ∧
    process_update_file MrtProcessor.default "rrc00.updates"
        ([c8Good] ++ c8Bad :: [c8Good]) =
      some (Except.error
        ("Unsupported content: Update file " ++ "rrc00.updates" ++
          " might be a bview.")) :=
  ⟨by decide, by decide,
   C8_wrong_file_kind MrtProcessor.default "rrc00.updates" [c8Good] c8Bad
     [c8Good] (by decide) (by decide)⟩
